import Mathlib

/-!
Shallow embedding of the libmelee event-stream decoder (`melee/console.py`):
the event-size table, the event dispatcher `__handle_slippstream_events`, and
the record decoders `__game_start`, `__pre_frame`, `__post_frame`,
`__frame_bookend` and `__item_update`.

Byte buffers are `List Nat` (each entry one byte).  Big-endian integer reads
are modelled exactly; IEEE-754 float reads are abstracted into an environment
function `Env.f32` turning the four payload bytes into an exact rational, so
that all decoding *logic* (offsets, guards, defaults, exceptions) stays
faithful while no floating-point rounding is modelled.  Python exceptions
that the source lets propagate are modelled with `Except`/an explicit error
result; Python's `int()` truncation toward zero is `ratTrunc`.
-/

/-- Modelled from the spec: the event-type command codes recognized by the
dispatcher (payload-descriptor, frame-start, session-start, session-end,
pre-frame-update, post-frame-update, code-list, frame-bookend, item-update,
menu-frame).  The `EventType` enum lives in `melee/slippstream.py`, which is
not part of the sources; the byte values are the Slippi protocol constants
used by libmelee. -/
def EV_GECKO_CODES : Nat := 0x10

/-- Modelled from the spec: payload-descriptor command code (see `EV_GECKO_CODES`). -/
def EV_PAYLOADS : Nat := 0x35

/-- Modelled from the spec: session-start command code. -/
def EV_GAME_START : Nat := 0x36

/-- Modelled from the spec: pre-frame-update command code. -/
def EV_PRE_FRAME : Nat := 0x37

/-- Modelled from the spec: post-frame-update command code. -/
def EV_POST_FRAME : Nat := 0x38

/-- Modelled from the spec: session-end command code. -/
def EV_GAME_END : Nat := 0x39

/-- Modelled from the spec: frame-start command code. -/
def EV_FRAME_START : Nat := 0x3a

/-- Modelled from the spec: item-update command code. -/
def EV_ITEM_UPDATE : Nat := 0x3b

/-- Modelled from the spec: frame-bookend command code. -/
def EV_FRAME_BOOKEND : Nat := 0x3c

/-- Modelled from the spec: menu-frame command code (a recognized event type,
but one the game-event dispatcher has no branch for). -/
def EV_MENU_EVENT : Nat := 0x3e

/-- True when the byte is a member of the `EventType` enum; Python's
`EventType(b)` raises `ValueError` exactly when this is false. -/
def isEventTypeMember (b : Nat) : Bool :=
  b ∈ [EV_GECKO_CODES, EV_PAYLOADS, EV_GAME_START, EV_PRE_FRAME, EV_POST_FRAME,
       EV_GAME_END, EV_FRAME_START, EV_ITEM_UPDATE, EV_FRAME_BOOKEND, EV_MENU_EVENT]

/-- Modelled from the spec: the designated "dashing" action id from the
external action table (`melee.enums`, not in the sources). -/
def ACTION_DASHING : Nat := 0x14

/-- Modelled from the spec: the designated "turning" action id. -/
def ACTION_TURNING : Nat := 0x12

/-- Modelled from the spec: the designated "idle on invisible respawn
platform" action id. -/
def ACTION_ON_HALO_WAIT : Nat := 0x0d

/-- Modelled from the spec: the designated "descending from respawn platform"
action id. -/
def ACTION_ON_HALO_DESCENT : Nat := 0x0c

/-- Modelled from the spec: the designated "ledge-catch" action id. -/
def ACTION_EDGE_CATCHING : Nat := 0xfc

/-- Modelled from the spec: the "unknown animation" sentinel action id
substituted for an unmapped action. -/
def ACTION_UNKNOWN_ANIMATION : Nat := 0xffff

/-- Modelled from the spec: the "in game" menu-state id from the external
menu table. -/
def MENU_IN_GAME : Nat := 2

/-- Modelled from the spec: the "no stage" sentinel stage id. -/
def STAGE_NO_STAGE : Nat := 0

/-- Modelled from the spec: the "unknown character" sentinel id. -/
def CHARACTER_UNKNOWN : Nat := 0xff

/-- Modelled from the spec: the "unknown projectile" sentinel subtype id. -/
def SUBTYPE_UNKNOWN : Nat := 0xffff

/-- Python exceptions that can escape the decoder. -/
inductive PyErr where
  /-- `ValueError` from converting a byte through an enum with no such member. -/
  | valueError (b : Nat)
  /-- `TypeError` from a numpy fixed-offset read on a too-short buffer. -/
  | typeError
  /-- `KeyError` from a dict lookup with a missing key. -/
  | keyError
  /-- `IndexError` from indexing a too-short bytes object. -/
  | indexError
  /-- The `SlippiVersionTooLow` exception raised by `__game_start`. -/
  | slippiVersionTooLow (major minor versionNum : Nat)
  deriving DecidableEq

/-- One byte at `off` (numpy `">B"`); `none` models the exception on a
too-short buffer. -/
def readU8 (b : List Nat) (off : Nat) : Option Nat := b.get? off

/-- Big-endian unsigned 16-bit read at `off` (numpy `">H"`). -/
def readU16 (b : List Nat) (off : Nat) : Option Nat :=
  match b.get? off, b.get? (off + 1) with
  | some hi, some lo => some (hi * 256 + lo)
  | _, _ => none

/-- Big-endian signed 32-bit read at `off` (numpy `">i"`), two's complement. -/
def readI32 (b : List Nat) (off : Nat) : Option Int :=
  match b.get? off, b.get? (off + 1), b.get? (off + 2), b.get? (off + 3) with
  | some b0, some b1, some b2, some b3 =>
      let n := ((b0 * 256 + b1) * 256 + b2) * 256 + b3
      some (if n < 2 ^ 31 then (n : Int) else (n : Int) - 2 ^ 32)
  | _, _, _, _ => none

/-- Python `int()` on a rational: truncation toward zero. -/
def ratTrunc (q : ℚ) : Int := Int.tdiv q.num q.den

/-- The decoder's external collaborators: the IEEE-754 float interpretation
and the static lookup tables (stage table, action table, character table,
projectile-subtype table, stage ground-edge table), which the spec treats as
external read-only inputs. -/
structure Env where
  /-- Interpretation of a big-endian float32's four payload bytes as an exact
  rational (abstracts IEEE-754 decoding). -/
  f32 : Nat → Nat → Nat → Nat → ℚ
  /-- Membership of the external action-id table; a non-member id maps to the
  "unknown animation" sentinel. -/
  isKnownAction : Nat → Bool
  /-- Membership of the external character-id table; `enums.Character(b)`
  raises `ValueError` on a non-member. -/
  isKnownCharacter : Nat → Bool
  /-- Membership of the external projectile-subtype table. -/
  isKnownSubtype : Nat → Bool
  /-- The external raw-stage-id to internal-stage-id table
  (`enums.to_internal_stage`); `none` models its `ValueError`. -/
  toInternalStage : Nat → Option Nat
  /-- The external `stages.EDGE_GROUND_POSITION` table; `none` models a
  `KeyError` for a stage with no known ground-edge bound. -/
  edgeGroundPosition : Nat → Option ℚ

/-- Big-endian float32 read at `off` (numpy `">f"`), interpreted through
`Env.f32`; `none` models the exception on a too-short buffer. -/
def readF32 (env : Env) (b : List Nat) (off : Nat) : Option ℚ :=
  match b.get? off, b.get? (off + 1), b.get? (off + 2), b.get? (off + 3) with
  | some b0, some b1, some b2, some b3 => some (env.f32 b0 b1 b2 b3)
  | _, _, _, _ => none

/-- Four one-byte reads with a fixed stride, as in the per-port loops of
`__game_start`. -/
def read4 (b : List Nat) (base stride : Nat) : Option (List Nat) :=
  match readU8 b base, readU8 b (base + stride),
        readU8 b (base + 2 * stride), readU8 b (base + 3 * stride) with
  | some v0, some v1, some v2, some v3 => some [v0, v1, v2, v3]
  | _, _, _, _ => none

/-- The physical controller state decoded by `__pre_frame`. -/
structure ControllerState where
  main_stick : ℚ × ℚ := (1/2, 1/2)
  c_stick : ℚ × ℚ := (1/2, 1/2)
  button_a : Bool := false
  button_b : Bool := false
  button_x : Bool := false
  button_y : Bool := false
  button_start : Bool := false
  button_z : Bool := false
  button_r : Bool := false
  button_l : Bool := false
  button_d_left : Bool := false
  button_d_right : Bool := false
  button_d_down : Bool := false
  button_d_up : Bool := false
  deriving DecidableEq

/-- One player's state within a snapshot (the gameplay fields of
`melee.gamestate.PlayerState`; that module is not in the sources, so the
initial defaults are modelled from the spec's sentinels). -/
structure PlayerState where
  x : ℚ := 0
  y : ℚ := 0
  character : Nat := CHARACTER_UNKNOWN
  action : Nat := ACTION_UNKNOWN_ANIMATION
  facing : Bool := true
  percent : Int := 0
  shield_strength : ℚ := 60
  stock : Nat := 0
  action_frame : Int := 0
  hitlag : Bool := false
  hitstun_frames_left : Int := 0
  on_ground : Bool := true
  jumps_left : Nat := 1
  invulnerable : Bool := false
  invulnerability_left : Int := 0
  speed_air_x_self : ℚ := 0
  speed_y_self : ℚ := 0
  speed_x_attack : ℚ := 0
  speed_y_attack : ℚ := 0
  speed_ground_x_self : ℚ := 0
  moonwalkwarning : Bool := false
  off_stage : Bool := false
  ecb_top : ℚ × ℚ := (0, 0)
  ecb_bottom : ℚ × ℚ := (0, 0)
  ecb_left : ℚ × ℚ := (0, 0)
  ecb_right : ℚ × ℚ := (0, 0)
  costume : Nat := 0
  cpu_level : Nat := 0
  controller_state : ControllerState := {}
  deriving DecidableEq

/-- A projectile decoded by `__item_update`. -/
structure Projectile where
  x : ℚ := 0
  y : ℚ := 0
  x_speed : ℚ := 0
  y_speed : ℚ := 0
  owner : Int := -1
  subtype : Nat := SUBTYPE_UNKNOWN
  deriving DecidableEq

/-- A snapshot under construction / emitted to the caller
(`melee.gamestate.GameState`, gameplay fields).  The player map is an
association list in insertion order, matching Python dict iteration order.
The source stores `math.sqrt(xdist**2 + ydist**2)` in `distance`; the model
stores the exact radicand `distanceSq` and exposes the square root through
the derived accessor `GameState.distance`, so that the decoder itself stays
executable. -/
structure GameState where
  menu_state : Nat := MENU_IN_GAME
  frame : Int := -10000
  stage : Nat := STAGE_NO_STAGE
  player : List (Nat × PlayerState) := []
  projectiles : List Projectile := []
  distanceSq : ℚ := 0
  deriving DecidableEq

/-- The session state of the `Console` object that the decoder reads and
mutates. -/
structure ConsoleState where
  /-- `self.eventsize`, a 256-entry table of declared record lengths. -/
  eventsize : List Nat := List.replicate 256 0
  /-- `self._frame`, the last delivered frame index. -/
  frame : Int := 0
  /-- `self._allow_old_version`, the caller's legacy opt-in. -/
  allow_old_version : Bool := false
  /-- `self._use_manual_bookends`, the legacy-bookend mode flag. -/
  use_manual_bookends : Bool := false
  /-- `self.slp_version` as a parsed triple; `none` is the initial
  "unknown". -/
  slp_version : Option (Nat × Nat × Nat) := none
  /-- `self._current_stage`. -/
  current_stage : Nat := STAGE_NO_STAGE
  /-- `self._prev_gamestate`, the retained previous snapshot. -/
  prev_gamestate : GameState := {}
  /-- `self._costumes`, per 0-based port. -/
  costumes : List Nat := [0, 0, 0, 0]
  /-- `self._cpu_level`, per 0-based port. -/
  cpu_level : List Nat := [0, 0, 0, 0]
  deriving DecidableEq

/-- Lookup in the player association list (Python `gamestate.player[port]`). -/
def lookupPort : List (Nat × PlayerState) → Nat → Option PlayerState
  | [], _ => none
  | (k, v) :: rest, p => if k = p then some v else lookupPort rest p

/-- Update-or-append in the player association list; appending at the end
matches Python dict insertion order for a newly created port. -/
def setPort : List (Nat × PlayerState) → Nat → PlayerState → List (Nat × PlayerState)
  | [], p, s => [(p, s)]
  | (k, v) :: rest, p, s => if k = p then (p, s) :: rest else (k, v) :: setPort rest p s

/-- Comparison of a parsed three-part numeric version against another, as
`packaging.version.parse` compares purely numeric releases: lexicographically.
`__game_start` compares the declared version against the minimum `3.0.0`. -/
def versionLt (a b c d e f : Nat) : Bool :=
  decide (a < d) || (decide (a = d) && (decide (b < e) || (decide (b = e) && decide (c < f))))

/-- `Console.__game_start`: reads the three-byte version triple, selects
legacy-bookend mode, raises `SlippiVersionTooLow` for an old version without
the caller's opt-in, then decodes the stage id and the per-port
costume / CPU-level / player-type blocks. -/
def game_start (env : Env) (st0 : ConsoleState) (b : List Nat) : Except PyErr ConsoleState :=
  let st := { st0 with frame := -10000 }
  match readU8 b 0x1, readU8 b 0x2, readU8 b 0x3 with
  | some major, some minor, some versionNum =>
    let st := { st with
      slp_version := some (major, minor, versionNum),
      use_manual_bookends := st.allow_old_version && versionLt major minor versionNum 3 0 0 }
    if major < 3 ∧ st.allow_old_version = false then
      .error (.slippiVersionTooLow major minor versionNum)
    else
      match readU16 b 0x13 with
      | some rawStage =>
        let st := { st with current_stage := (env.toInternalStage rawStage).getD STAGE_NO_STAGE }
        match read4 b 0x68 0x24, read4 b 0x74 0x24, read4 b 0x66 0x24 with
        | some costumeBytes, some cpuBytes, some typeBytes =>
          .ok { st with
            costumes := costumeBytes,
            cpu_level := List.zipWith (fun t c => if t ≠ 1 then 0 else c) typeBytes cpuBytes }
        | _, _, _ => .error .typeError
      | none => .error .typeError
  | _, _, _ => .error .typeError

/-- `Console.__pre_frame`: controller port (zero-based byte plus one), lazy
player creation, costume and CPU level from the session-start side tables,
normalized analog sticks `(raw / 2) + 0.5`, and the button bitmask. -/
def pre_frame (env : Env) (st : ConsoleState) (gs : GameState) (b : List Nat) :
    Except PyErr (ConsoleState × GameState) :=
  match readU8 b 0x5 with
  | none => .error .typeError
  | some portRaw =>
    let port := portRaw + 1
    let ps0 := (lookupPort gs.player port).getD {}
    match st.costumes.get? portRaw, st.cpu_level.get? portRaw with
    | some costumeVal, some cpuVal =>
      match readF32 env b 0x19, readF32 env b 0x1D, readF32 env b 0x21, readF32 env b 0x25,
            readU16 b 0x31 with
      | some mainX, some mainY, some cX, some cY, some bits =>
        let ps := { ps0 with
          costume := costumeVal,
          cpu_level := cpuVal,
          controller_state := { ps0.controller_state with
            main_stick := (mainX / 2 + 1/2, mainY / 2 + 1/2),
            c_stick := (cX / 2 + 1/2, cY / 2 + 1/2),
            button_a := bits &&& 0x0100 != 0,
            button_b := bits &&& 0x0200 != 0,
            button_x := bits &&& 0x0400 != 0,
            button_y := bits &&& 0x0800 != 0,
            button_start := bits &&& 0x1000 != 0,
            button_z := bits &&& 0x0010 != 0,
            button_r := bits &&& 0x0020 != 0,
            button_l := bits &&& 0x0040 != 0,
            button_d_left := bits &&& 0x0001 != 0,
            button_d_right := bits &&& 0x0002 != 0,
            button_d_down := bits &&& 0x0004 != 0,
            button_d_up := bits &&& 0x0008 != 0 } }
        let gs := { gs with player := setPort gs.player port ps }
        let st := if st.use_manual_bookends then { st with frame := gs.frame } else st
        .ok (st, gs)
      | _, _, _, _, _ => .error .typeError
    | _, _ => .error .keyError

/-- The "off_stage" helper of `Console.__post_frame`: inside the `try`, the
flag is `(abs(x) > EDGE_GROUND_POSITION[stage] or y < -6) and not on_ground`;
a stage missing from the table raises `KeyError`, caught to `False`. -/
def offStageFlag (env : Env) (stage : Nat) (x y : ℚ) (on_ground : Bool) : Bool :=
  match env.edgeGroundPosition stage with
  | none => false
  | some bound => decide ((|x| > bound ∨ y < -6) ∧ on_ground = false)

/-- The raw field values `Console.__post_frame` decodes from a post-frame
record, before the stateful derivations. -/
structure PostFields where
  frame : Int := 0
  port : Nat := 1
  x : ℚ := 0
  y : ℚ := 0
  character : Nat := 0
  action : Nat := 0
  facing : Bool := true
  percent : Int := 0
  shield_strength : ℚ := 60
  stock : Nat := 0
  action_frame : Int := 0
  hitlag : Bool := false
  hitstun_frames_left : Int := 0
  on_ground : Bool := true
  jumps_left : Nat := 1
  invulnerable : Bool := false
  speed_air_x_self : ℚ := 0
  speed_y_self : ℚ := 0
  speed_x_attack : ℚ := 0
  speed_y_attack : ℚ := 0
  speed_ground_x_self : ℚ := 0
  ecb_top : ℚ × ℚ := (0, 0)
  ecb_bottom : ℚ × ℚ := (0, 0)
  ecb_left : ℚ × ℚ := (0, 0)
  ecb_right : ℚ × ℚ := (0, 0)
  deriving DecidableEq

/-- The fixed-offset reads of `Console.__post_frame`, in source order: the
unguarded reads propagate their exception; the newer tail fields are each
individually defaulted when the buffer is too short. -/
def decodePostFields (env : Env) (b : List Nat) : Except PyErr PostFields :=
  match readI32 b 0x1, readU8 b 0x5, readF32 env b 0xa, readF32 env b 0xe, readU8 b 0x7 with
  | some frameVal, some portRaw, some xVal, some yVal, some chVal =>
    if env.isKnownCharacter chVal = false then .error (.valueError chVal)
    else
      match readU16 b 0x8 with
      | some actionRaw =>
        match readF32 env b 0x12, readF32 env b 0x16, readF32 env b 0x1A,
              readU8 b 0x21, readF32 env b 0x22 with
        | some facingRaw, some percentRaw, some shieldVal, some stockVal, some afRaw =>
          .ok {
            frame := frameVal,
            port := portRaw + 1,
            x := xVal,
            y := yVal,
            character := chVal,
            action := if env.isKnownAction actionRaw then actionRaw else ACTION_UNKNOWN_ANIMATION,
            facing := decide (facingRaw > 0),
            percent := ratTrunc percentRaw,
            shield_strength := shieldVal,
            stock := stockVal,
            action_frame := ratTrunc afRaw,
            hitlag := match readU8 b 0x27 with
              | some v => v &&& 0x20 != 0
              | none => false,
            hitstun_frames_left := match readF32 env b 0x2B with
              | some q => ratTrunc q
              | none => 0,
            on_ground := match readU8 b 0x2F with
              | some v => v == 0
              | none => true,
            jumps_left := (readU8 b 0x32).getD 1,
            invulnerable := match readU8 b 0x34 with
              | some v => v != 0
              | none => false,
            speed_air_x_self := (readF32 env b 0x35).getD 0,
            speed_y_self := (readF32 env b 0x39).getD 0,
            speed_x_attack := (readF32 env b 0x3D).getD 0,
            speed_y_attack := (readF32 env b 0x41).getD 0,
            speed_ground_x_self := (readF32 env b 0x45).getD 0,
            ecb_top := ((readF32 env b 0x49).getD 0, (readF32 env b 0x4D).getD 0),
            ecb_bottom := ((readF32 env b 0x51).getD 0, (readF32 env b 0x55).getD 0),
            ecb_left := ((readF32 env b 0x59).getD 0, (readF32 env b 0x5D).getD 0),
            ecb_right := ((readF32 env b 0x61).getD 0, (readF32 env b 0x65).getD 0) }
        | _, _, _, _, _ => .error .typeError
      | none => .error .typeError
  | _, _, _, _, _ => .error .typeError

/-- The invulnerability-countdown block of `Console.__post_frame`, in source
order: the decrement (floored at zero) of the previous snapshot's value when
that port was present, then the three overriding `if`s on the just-assigned
action. -/
def updateInvulnerability (prevPlayer : Option PlayerState) (frame : Int) (ps : PlayerState) :
    PlayerState :=
  let base := match prevPlayer with
    | some prev => max 0 (prev.invulnerability_left - 1)
    | none => ps.invulnerability_left
  let v1 := if ps.action = ACTION_ON_HALO_WAIT then 120 else base
  let v2 := if ps.action = ACTION_ON_HALO_DESCENT ∧ frame > 150 then 120 else v1
  let v3 := if ps.action = ACTION_EDGE_CATCHING ∧ ps.action_frame = 1 then 36 else v2
  { ps with invulnerability_left := v3 }

/-- The moonwalk-warning block of `Console.__post_frame`, in source order:
set on a transition into dashing from an action that is neither dashing nor
turning (when the port was present in the previous snapshot), then cleared
whenever the current action is not dashing. -/
def updateMoonwalk (prevPlayer : Option PlayerState) (ps : PlayerState) : PlayerState :=
  let w1 := match prevPlayer with
    | some prev =>
      if ps.action = ACTION_DASHING ∧ prev.action ≠ ACTION_DASHING ∧ prev.action ≠ ACTION_TURNING
      then true else ps.moonwalkwarning
    | none => ps.moonwalkwarning
  let w2 := if ps.action ≠ ACTION_DASHING then false else w1
  { ps with moonwalkwarning := w2 }

/-- The assignments and stateful derivations of `Console.__post_frame`, in
source order: raw field assignments, the invulnerability countdown, the
moonwalk pre-warning, the off-stage helper, the ECB corners, and the
legacy-mode frame note. -/
def applyPostFrame (env : Env) (st : ConsoleState) (gs : GameState) (f : PostFields) :
    ConsoleState × GameState :=
  let gs := { gs with stage := st.current_stage, frame := f.frame }
  let ps0 := (lookupPort gs.player f.port).getD {}
  let ps1 := { ps0 with
    x := f.x, y := f.y, character := f.character, action := f.action, facing := f.facing,
    percent := f.percent, shield_strength := f.shield_strength, stock := f.stock,
    action_frame := f.action_frame, hitlag := f.hitlag,
    hitstun_frames_left := f.hitstun_frames_left, on_ground := f.on_ground,
    jumps_left := f.jumps_left, invulnerable := f.invulnerable,
    speed_air_x_self := f.speed_air_x_self, speed_y_self := f.speed_y_self,
    speed_x_attack := f.speed_x_attack, speed_y_attack := f.speed_y_attack,
    speed_ground_x_self := f.speed_ground_x_self }
  let ps2 := updateInvulnerability (lookupPort st.prev_gamestate.player f.port) gs.frame ps1
  let ps3 := updateMoonwalk (lookupPort st.prev_gamestate.player f.port) ps2
  let ps4 := { ps3 with off_stage := offStageFlag env gs.stage ps3.x ps3.y ps3.on_ground }
  let ps5 := { ps4 with
    ecb_top := f.ecb_top, ecb_bottom := f.ecb_bottom,
    ecb_left := f.ecb_left, ecb_right := f.ecb_right }
  let gs2 := { gs with player := setPort gs.player f.port ps5 }
  let st2 := if st.use_manual_bookends then { st with frame := gs2.frame } else st
  (st2, gs2)

/-- `Console.__post_frame`: decode the record's fields, then apply them. -/
def post_frame (env : Env) (st : ConsoleState) (gs : GameState) (b : List Nat) :
    Except PyErr (ConsoleState × GameState) :=
  match decodePostFields env b with
  | .ok f => .ok (applyPostFrame env st gs f)
  | .error e => .error e

/-- `Console.__item_update`: position and velocity floats, the owner port from
the raw owner byte plus one (values above four, or a too-short buffer, map to
the sentinel `-1`), the subtype through the external table, and the append to
the snapshot's projectile list. -/
def item_update (env : Env) (gs : GameState) (b : List Nat) : Except PyErr GameState :=
  match readF32 env b 0x14, readF32 env b 0x18, readF32 env b 0xc, readF32 env b 0x10 with
  | some xVal, some yVal, some xSpeed, some ySpeed =>
    let ownerVal : Int := match readU8 b 0x2A with
      | some v => if (v : Int) + 1 > 4 then -1 else (v : Int) + 1
      | none => -1
    match readU16 b 0x5 with
    | some subRaw =>
      .ok { gs with projectiles := gs.projectiles ++
        [{ x := xVal, y := yVal, x_speed := xSpeed, y_speed := ySpeed,
           owner := ownerVal,
           subtype := if env.isKnownSubtype subRaw then subRaw else SUBTYPE_UNKNOWN }] }
    | none => .error .typeError
  | _, _, _, _ => .error .typeError

/-- `Console.__frame_bookend`: the inter-player distance from the first two
players in the snapshot's iteration order, each defaulting to the origin when
missing.  The exact radicand is stored; see `GameState.distance`. -/
def frame_bookend (gs : GameState) : GameState :=
  let p1 : ℚ × ℚ := match gs.player with
    | (_, s) :: _ => (s.x, s.y)
    | [] => (0, 0)
  let p2 : ℚ × ℚ := match gs.player with
    | _ :: (_, s) :: _ => (s.x, s.y)
    | _ => (0, 0)
  { gs with distanceSq := (p1.1 - p2.1) ^ 2 + (p1.2 - p2.2) ^ 2 }

/-- The snapshot's `distance` field, `math.sqrt(xdist**2 + ydist**2)` in the
source, exposed as the exact square root of the stored radicand. -/
noncomputable def GameState.distance (gs : GameState) : ℝ :=
  Real.sqrt ((gs.distanceSq : ℚ) : ℝ)

/-- Euclidean distance between two rational points, as a real number. -/
noncomputable def euclideanDistance (p q : ℚ × ℚ) : ℝ :=
  Real.sqrt (((p.1 - q.1 : ℚ) : ℝ) ^ 2 + ((p.2 - q.2 : ℚ) : ℝ) ^ 2)

/-- The `FRAME_BOOKEND` arm of the dispatcher: run `__frame_bookend` (which
stores the snapshot as the previous snapshot and computes the distance), then
apply the strictly-increasing frame check — an old frame is not emitted, a
new one updates `self._frame` and is emitted. -/
def emitFinalized (st : ConsoleState) (gs : GameState) : ConsoleState × GameState × Bool :=
  let gs2 := frame_bookend gs
  let st2 := { st with prev_gamestate := gs2 }
  if gs2.frame ≤ st2.frame then (st2, gs2, false)
  else ({ st2 with frame := gs2.frame }, gs2, true)

/-- One decoder session at the finalized-frame level: each finalized snapshot
goes through the dispatcher's frame-bookend arm, and the frame indices of the
emitted ones are collected in order. -/
def sessionEmits : ConsoleState → List GameState → List Int
  | _, [] => []
  | st, gs :: rest =>
    let r := emitFinalized st gs
    if r.2.2 then r.2.1.frame :: sessionEmits r.1 rest
    else sessionEmits r.1 rest

/-- The inner loop of the `PAYLOADS` arm: read `(command, length)` pairs and
store each declared length plus one in the event size table. -/
def applyPayloads : Nat → List Nat → Nat → List Nat → Except PyErr (List Nat)
  | 0, es, _, _ => .ok es
  | n + 1, es, cursor, b =>
    match readU8 b cursor, readU16 b (cursor + 1) with
    | some command, some commandLen =>
        applyPayloads n (es.set command (commandLen + 1)) (cursor + 3) b
    | _, _ => .error .typeError

/-- Outcome of one dispatcher call: a normal return carrying the updated
session state, snapshot and the frame-ended flag; a propagating Python
exception; or fuel exhaustion, standing for the source's non-termination. -/
inductive HandleResult where
  | ok (st : ConsoleState) (gs : GameState) (frameEnded : Bool)
  | exn (e : PyErr)
  | outOfFuel
  deriving DecidableEq

/-- The record-slicing loop of `Console.__handle_slippstream_events`: look up
the declared length of the record at the cursor, stop (returning "frame not
ended") when the remaining buffer is shorter, raise `ValueError` for a byte
that is no event type, dispatch the recognized records, and recurse on the
rest of the buffer.  Fuel bounds the number of loop iterations. -/
def handleEventsLoop (env : Env) : Nat → ConsoleState → GameState → List Nat → HandleResult
  | 0, _, _, _ => .outOfFuel
  | fuel + 1, st, gs, bytes =>
    match bytes with
    | [] => .ok st gs false
    | b :: rest =>
      let eventSize := st.eventsize.getD b 0
      if (b :: rest).length < eventSize then .ok st gs false
      else if isEventTypeMember b = false then .exn (.valueError b)
      else if b = EV_PAYLOADS then
        match readU8 (b :: rest) 1 with
        | none => .exn .indexError
        | some payloadSize =>
          match applyPayloads ((payloadSize - 1) / 3) st.eventsize 2 (b :: rest) with
          | .error e => .exn e
          | .ok es =>
            handleEventsLoop env fuel { st with eventsize := es } gs
              ((b :: rest).drop (payloadSize + 1))
      else if b = EV_FRAME_START then
        handleEventsLoop env fuel st gs ((b :: rest).drop eventSize)
      else if b = EV_GAME_START then
        match game_start env st (b :: rest) with
        | .error e => .exn e
        | .ok st' => handleEventsLoop env fuel st' gs ((b :: rest).drop eventSize)
      else if b = EV_GAME_END then .ok st gs st.use_manual_bookends
      else if b = EV_PRE_FRAME then
        match pre_frame env st gs (b :: rest) with
        | .error e => .exn e
        | .ok (st', gs') => handleEventsLoop env fuel st' gs' ((b :: rest).drop eventSize)
      else if b = EV_POST_FRAME then
        match post_frame env st gs (b :: rest) with
        | .error e => .exn e
        | .ok (st', gs') => handleEventsLoop env fuel st' gs' ((b :: rest).drop eventSize)
      else if b = EV_GECKO_CODES then
        handleEventsLoop env fuel st gs ((b :: rest).drop eventSize)
      else if b = EV_FRAME_BOOKEND then
        let r := emitFinalized st gs
        .ok r.1 r.2.1 r.2.2
      else if b = EV_ITEM_UPDATE then
        match item_update env gs (b :: rest) with
        | .error e => .exn e
        | .ok gs' => handleEventsLoop env fuel st gs' ((b :: rest).drop eventSize)
      else .ok st gs false

/-- The dispatcher's entry assignment `gamestate.menu_state = IN_GAME`. -/
def setInGame (gs : GameState) : GameState := { gs with menu_state := MENU_IN_GAME }

/-- `Console.__handle_slippstream_events`: mark the snapshot in-game and run
the record-slicing loop over the delivered buffer. -/
def handle_slippstream_events (env : Env) (fuel : Nat) (st : ConsoleState) (gs : GameState)
    (bytes : List Nat) : HandleResult :=
  handleEventsLoop env fuel st (setInGame gs) bytes

/-- A flat environment for concrete evaluations: every float payload decodes
to `0` and every external table is empty. -/
def envFlat : Env where
  f32 := fun _ _ _ _ => 0
  isKnownAction := fun _ => false
  isKnownCharacter := fun _ => false
  isKnownSubtype := fun _ => false
  toInternalStage := fun _ => none
  edgeGroundPosition := fun _ => none

/-- An environment whose ground-edge table gives every stage the bound `85`
(the spec's worked example). -/
def envEdge85 : Env :=
  { envFlat with edgeGroundPosition := fun _ => some 85 }

/-- A session state whose event-size table declares length 5 for the
frame-bookend command and whose last delivered frame is the session-start
sentinel. -/
def stBookend5 : ConsoleState :=
  { eventsize := (List.replicate 256 0).set EV_FRAME_BOOKEND 5, frame := -10000 }

/-- An in-progress snapshot at frame 1. -/
def gsFrame1 : GameState := { frame := 1 }

/-- A session state with a length-1 frame-bookend record and last delivered
frame 10. -/
def stBookend1Frame10 : ConsoleState :=
  { eventsize := (List.replicate 256 0).set EV_FRAME_BOOKEND 1, frame := 10 }

/-- An in-progress snapshot at frame 7 (older than 10). -/
def gsFrame7 : GameState := { frame := 7 }

/-- Post-frame fields matching the spec's off-stage example: position
`(90, 0)`, airborne. -/
def pfOffstageX : PostFields := { port := 1, x := 90, y := 0, on_ground := false }

/-- Post-frame fields matching the spec's off-stage example: position
`(90, -10)`, airborne. -/
def pfOffstageW : PostFields := { port := 1, x := 90, y := -10, on_ground := false }

/-- A previous-snapshot player with invulnerability countdown 50 and a
neutral action. -/
def prevPlayer50 : PlayerState := { invulnerability_left := 50, action := 5 }

/-- A session state whose previous snapshot has `prevPlayer50` on port 1. -/
def stPrev50 : ConsoleState := { prev_gamestate := { player := [(1, prevPlayer50)] } }

/-- Post-frame fields for port 1 with a non-overriding action. -/
def pfNeutral : PostFields := { port := 1, frame := 200, action := 0 }

/-- Post-frame fields for port 1 entering the dashing action. -/
def pfDashing : PostFields := { port := 1, frame := 200, action := ACTION_DASHING }

/-- An item-update record buffer whose owner byte (offset `0x2A`) is 4. -/
def itemBuf4 : List Nat := (List.replicate 44 0).set 0x2A 4

/-- A session-start record buffer declaring version 2.0.0 (all other bytes
zero, long enough for every fixed-offset read). -/
def gameStartBuf2 : List Nat := (List.replicate 240 0).set 0x1 2

/-- A session state with the legacy opt-in enabled. -/
def stOptIn : ConsoleState := { allow_old_version := true }

/-- A session state with last delivered frame 0. -/
def stFrame0 : ConsoleState := { frame := 0 }

/-- Finalized snapshots at frames 5, 3 and 7, in order. -/
def gsSeq : List GameState := [{ frame := 5 }, { frame := 3 }, { frame := 7 }]

/-- A finalized snapshot at frame 0 (not newer than `stFrame0`). -/
def gsFrame0 : GameState := { frame := 0 }

/-- A snapshot holding a single player at position `(3, 4)` on port 1. -/
def gsOnePlayer : GameState := { player := [(1, { x := 3, y := 4 })] }

/-- The snapshot produced by decoding `itemBuf4` from an empty snapshot at
frame 0: one projectile whose owner is the sentinel `-1`. -/
def gsItemRes : GameState :=
  { frame := 0,
    projectiles := [{ x := 0, y := 0, x_speed := 0, y_speed := 0,
                      owner := -1, subtype := SUBTYPE_UNKNOWN }] }

theorem lookupPort_setPort (l : List (Nat × PlayerState)) (p : Nat) (s : PlayerState) :
    lookupPort (setPort l p s) p = some s := by
  induction l with
  | nil => simp [setPort, lookupPort]
  | cons kv rest ih =>
    obtain ⟨k, v⟩ := kv
    by_cases h : k = p
    · simp [setPort, lookupPort, h]
    · simp [setPort, lookupPort, h, ih]

theorem frame_bookend_frame (gs : GameState) : (frame_bookend gs).frame = gs.frame := rfl

theorem setInGame_frame (gs : GameState) : (setInGame gs).frame = gs.frame := rfl

theorem updateInvulnerability_action (pp : Option PlayerState) (fr : Int) (ps : PlayerState) :
    (updateInvulnerability pp fr ps).action = ps.action := rfl

theorem updateInvulnerability_x (pp : Option PlayerState) (fr : Int) (ps : PlayerState) :
    (updateInvulnerability pp fr ps).x = ps.x := rfl

theorem updateInvulnerability_y (pp : Option PlayerState) (fr : Int) (ps : PlayerState) :
    (updateInvulnerability pp fr ps).y = ps.y := rfl

theorem updateInvulnerability_on_ground (pp : Option PlayerState) (fr : Int) (ps : PlayerState) :
    (updateInvulnerability pp fr ps).on_ground = ps.on_ground := rfl

theorem updateInvulnerability_action_frame (pp : Option PlayerState) (fr : Int)
    (ps : PlayerState) : (updateInvulnerability pp fr ps).action_frame = ps.action_frame := rfl

theorem updateInvulnerability_value (prev : PlayerState) (fr : Int) (ps : PlayerState) :
    (updateInvulnerability (some prev) fr ps).invulnerability_left =
      (if ps.action = ACTION_EDGE_CATCHING ∧ ps.action_frame = 1 then 36
       else if ps.action = ACTION_ON_HALO_DESCENT ∧ fr > 150 then 120
       else if ps.action = ACTION_ON_HALO_WAIT then 120
       else max 0 (prev.invulnerability_left - 1)) := rfl

theorem updateMoonwalk_x (pp : Option PlayerState) (ps : PlayerState) :
    (updateMoonwalk pp ps).x = ps.x := rfl

theorem updateMoonwalk_y (pp : Option PlayerState) (ps : PlayerState) :
    (updateMoonwalk pp ps).y = ps.y := rfl

theorem updateMoonwalk_on_ground (pp : Option PlayerState) (ps : PlayerState) :
    (updateMoonwalk pp ps).on_ground = ps.on_ground := rfl

theorem updateMoonwalk_action (pp : Option PlayerState) (ps : PlayerState) :
    (updateMoonwalk pp ps).action = ps.action := rfl

theorem updateMoonwalk_invulnerability (pp : Option PlayerState) (ps : PlayerState) :
    (updateMoonwalk pp ps).invulnerability_left = ps.invulnerability_left := rfl

theorem updateMoonwalk_set (prev ps : PlayerState) (h1 : ps.action = ACTION_DASHING)
    (h2 : prev.action ≠ ACTION_DASHING) (h3 : prev.action ≠ ACTION_TURNING) :
    (updateMoonwalk (some prev) ps).moonwalkwarning = true := by
  unfold updateMoonwalk
  simp [h1, h2, h3]

theorem updateMoonwalk_clear (pp : Option PlayerState) (ps : PlayerState)
    (h : ps.action ≠ ACTION_DASHING) :
    (updateMoonwalk pp ps).moonwalkwarning = false := by
  unfold updateMoonwalk
  cases pp <;> simp [h]

theorem versionLt_three (a b c : Nat) : versionLt a b c 3 0 0 = true ↔ a < 3 := by
  simp [versionLt]

theorem sessionEmits_spec (gss : List GameState) : ∀ st : ConsoleState,
    (∀ f ∈ sessionEmits st gss, st.frame < f) ∧ (sessionEmits st gss).Pairwise (· < ·) := by
  induction gss with
  | nil => intro st; simp [sessionEmits]
  | cons gs rest ih =>
    intro st
    by_cases h : gs.frame ≤ st.frame
    · have e1 : sessionEmits st (gs :: rest)
          = sessionEmits { st with prev_gamestate := frame_bookend gs } rest := by
        simp [sessionEmits, emitFinalized, frame_bookend_frame, h]
      rw [e1]
      exact ⟨fun f hf => (ih { st with prev_gamestate := frame_bookend gs }).1 f hf,
        (ih { st with prev_gamestate := frame_bookend gs }).2⟩
    · have hlt : st.frame < gs.frame := by omega
      have e1 : sessionEmits st (gs :: rest)
          = gs.frame :: sessionEmits
              { st with prev_gamestate := frame_bookend gs, frame := gs.frame } rest := by
        simp [sessionEmits, emitFinalized, frame_bookend_frame, h]
      rw [e1]
      have hih := ih { st with prev_gamestate := frame_bookend gs, frame := gs.frame }
      have htail : ∀ f ∈ sessionEmits
          { st with prev_gamestate := frame_bookend gs, frame := gs.frame } rest,
          gs.frame < f := fun f hf => hih.1 f hf
      constructor
      · intro f hf
        rcases List.mem_cons.mp hf with h1 | h1
        · omega
        · exact lt_trans hlt (htail f h1)
      · exact List.Pairwise.cons htail hih.2

theorem handleEventsLoop_bookend (env : Env) (fuel : Nat) (st : ConsoleState) (gs : GameState)
    (rest : List Nat)
    (hsz : ¬((EV_FRAME_BOOKEND :: rest).length < st.eventsize.getD EV_FRAME_BOOKEND 0)) :
    handleEventsLoop env (fuel + 1) st gs (EV_FRAME_BOOKEND :: rest)
      = .ok (emitFinalized st gs).1 (emitFinalized st gs).2.1 (emitFinalized st gs).2.2 := by
  unfold handleEventsLoop
  dsimp only
  rw [if_neg hsz]
  rw [if_neg (by decide : ¬(isEventTypeMember EV_FRAME_BOOKEND = false))]
  rw [if_neg (by decide : ¬(EV_FRAME_BOOKEND = EV_PAYLOADS))]
  rw [if_neg (by decide : ¬(EV_FRAME_BOOKEND = EV_FRAME_START))]
  rw [if_neg (by decide : ¬(EV_FRAME_BOOKEND = EV_GAME_START))]
  rw [if_neg (by decide : ¬(EV_FRAME_BOOKEND = EV_GAME_END))]
  rw [if_neg (by decide : ¬(EV_FRAME_BOOKEND = EV_PRE_FRAME))]
  rw [if_neg (by decide : ¬(EV_FRAME_BOOKEND = EV_POST_FRAME))]
  rw [if_neg (by decide : ¬(EV_FRAME_BOOKEND = EV_GECKO_CODES))]
  rw [if_pos rfl]

/-- C4: within one decoder session, the frame-bookend arm emits a finalized
frame only when its index is strictly greater than every previously emitted
index (the emitted indices are pairwise increasing and all exceed the last
delivered frame at session entry), and a finalized frame whose index is not
strictly greater than the last delivered index produces no emission. -/
theorem frame_delivery_strictly_increasing (st : ConsoleState) (gss : List GameState) :
    (sessionEmits st gss).Pairwise (· < ·)
    ∧ (∀ f ∈ sessionEmits st gss, st.frame < f)
    ∧ (∀ gs : GameState, gs.frame ≤ st.frame → (emitFinalized st gs).2.2 = false) := by
  refine ⟨(sessionEmits_spec gss st).2, (sessionEmits_spec gss st).1, ?_⟩
  intro gs h
  simp [emitFinalized, frame_bookend_frame, h]

set_option maxRecDepth 8000 in
/-- Witness for C4 at a concrete session: from last frame 0, finalized frames
5, 3, 7 emit a strictly increasing list, 5 exceeds the entry frame, and a
frame-0 bookend emits nothing. -/
theorem frame_delivery_strictly_increasing_witness :
    (sessionEmits stFrame0 gsSeq).Pairwise (· < ·)
    ∧ stFrame0.frame < 5
    ∧ (emitFinalized stFrame0 gsFrame0).2.2 = false := by
  refine ⟨(frame_delivery_strictly_increasing stFrame0 gsSeq).1, ?_, ?_⟩
  · exact (frame_delivery_strictly_increasing stFrame0 gsSeq).2.1 5 (by decide)
  · exact (frame_delivery_strictly_increasing stFrame0 gsSeq).2.2 gsFrame0 (by decide)

/-- C9: processing a frame-bookend record stores the just-finalized snapshot
as the previous snapshot unconditionally — even when the frame is then
discarded by the strictly-increasing check, the dispatcher returns "frame not
ended" with the discarded snapshot installed as the lookback snapshot. -/
theorem bookend_stores_prev_before_check (env : Env) (fuel : Nat) (st : ConsoleState)
    (gs : GameState) (rest : List Nat)
    (hsz : ¬((EV_FRAME_BOOKEND :: rest).length < st.eventsize.getD EV_FRAME_BOOKEND 0))
    (hle : gs.frame ≤ st.frame) :
    handle_slippstream_events env (fuel + 1) st gs (EV_FRAME_BOOKEND :: rest)
      = .ok { st with prev_gamestate := frame_bookend (setInGame gs) }
          (frame_bookend (setInGame gs)) false := by
  unfold handle_slippstream_events
  rw [handleEventsLoop_bookend env fuel st (setInGame gs) rest hsz]
  have hcond : (frame_bookend (setInGame gs)).frame
      ≤ ({ st with prev_gamestate := frame_bookend (setInGame gs) } : ConsoleState).frame := by
    rw [frame_bookend_frame, setInGame_frame]
    exact hle
  unfold emitFinalized
  rw [if_pos hcond]

set_option maxRecDepth 8000 in
/-- Witness for C9: a length-1 bookend at frame 7 against last delivered
frame 10 is discarded yet becomes the previous snapshot. -/
theorem bookend_stores_prev_before_check_witness :
    ¬(([EV_FRAME_BOOKEND] : List Nat).length
        < stBookend1Frame10.eventsize.getD EV_FRAME_BOOKEND 0)
    ∧ gsFrame7.frame ≤ stBookend1Frame10.frame
    ∧ handle_slippstream_events envFlat 1 stBookend1Frame10 gsFrame7 [EV_FRAME_BOOKEND]
        = .ok { stBookend1Frame10 with prev_gamestate := frame_bookend (setInGame gsFrame7) }
            (frame_bookend (setInGame gsFrame7)) false :=
  ⟨by decide, by decide,
    bookend_stores_prev_before_check envFlat 0 stBookend1Frame10 gsFrame7 []
      (by decide) (by decide)⟩

set_option maxRecDepth 8000 in
/-- C2 counterexample: with the frame-bookend command registered at length 5,
delivering the first three bytes of a bookend record leaves the session state
untouched and the remainder is not retained anywhere, so delivering the
remaining two bytes next fails on a bogus command byte instead of resuming
the split record — while the same five bytes in one delivery emit the frame.
The continuation behavior on the second delivery depends on the spec-modelled
event-type codes; the discard itself is the dispatcher's early return. -/
theorem dispatcher_discards_remainder_cex :
    handle_slippstream_events envFlat 1 stBookend5 gsFrame1 [EV_FRAME_BOOKEND, 9, 9]
        = .ok stBookend5 (setInGame gsFrame1) false
    ∧ handle_slippstream_events envFlat 1 stBookend5 gsFrame1 [9, 9]
        = .exn (.valueError 9)
    ∧ handle_slippstream_events envFlat 1 stBookend5 gsFrame1 [EV_FRAME_BOOKEND, 9, 9, 9, 9]
        = .ok { stBookend5 with prev_gamestate := frame_bookend (setInGame gsFrame1), frame := 1 }
            (frame_bookend (setInGame gsFrame1)) true := by
  refine ⟨rfl, rfl, rfl⟩

/-- C2 (amended): when the remaining bytes are shorter than the declared
length of the record at the cursor, the dispatcher stops without error,
returning "frame not ended" with the session state unchanged; the unconsumed
remainder is discarded rather than carried forward, so the next delivery is
decoded from its own first byte. -/
theorem dispatcher_truncated_returns (env : Env) (fuel : Nat) (st : ConsoleState)
    (gs : GameState) (b : Nat) (rest : List Nat)
    (h : (b :: rest).length < st.eventsize.getD b 0) :
    handle_slippstream_events env (fuel + 1) st gs (b :: rest) = .ok st (setInGame gs) false := by
  unfold handle_slippstream_events handleEventsLoop
  dsimp only
  rw [if_pos h]

set_option maxRecDepth 8000 in
/-- Witness for the amended C2 at the counterexample's split delivery. -/
theorem dispatcher_truncated_returns_witness :
    (([EV_FRAME_BOOKEND, 9, 9] : List Nat).length
        < stBookend5.eventsize.getD EV_FRAME_BOOKEND 0)
    ∧ handle_slippstream_events envFlat 1 stBookend5 gsFrame1 [EV_FRAME_BOOKEND, 9, 9]
        = .ok stBookend5 (setInGame gsFrame1) false :=
  ⟨by decide,
    dispatcher_truncated_returns envFlat 0 stBookend5 gsFrame1 EV_FRAME_BOOKEND [9, 9]
      (by decide)⟩

set_option maxRecDepth 8000 in
/-- C3 counterexample: the menu-frame command code has no registered length,
yet dispatching it is not fatal — the dispatcher prints a warning and returns
"frame not ended" normally instead of propagating an error.  The membership
of this byte among the recognized event types is spec-modelled. -/
theorem unregistered_menu_byte_not_fatal_cex :
    stFrame0.eventsize.getD EV_MENU_EVENT 0 = 0
    ∧ handle_slippstream_events envFlat 1 stFrame0 gsFrame0 [EV_MENU_EVENT]
        = .ok stFrame0 (setInGame gsFrame0) false :=
  ⟨by decide, rfl⟩

/-- C3 (amended): for every command byte that has no registered length and is
not one of the recognized event-type codes, dispatching a record beginning
with that byte is fatal — the conversion raises `ValueError`, which
propagates to the caller and aborts the decode of the stream. -/
theorem unrecognized_command_fatal (env : Env) (fuel : Nat) (st : ConsoleState)
    (gs : GameState) (b : Nat) (rest : List Nat) (hm : isEventTypeMember b = false)
    (h0 : st.eventsize.getD b 0 = 0) :
    handle_slippstream_events env (fuel + 1) st gs (b :: rest) = .exn (.valueError b) := by
  unfold handle_slippstream_events handleEventsLoop
  dsimp only
  rw [h0]
  rw [if_neg (Nat.not_lt_zero _)]
  rw [if_pos hm]

set_option maxRecDepth 8000 in
/-- Witness for the amended C3: byte 9 is no event type and unregistered, and
dispatching it propagates `ValueError`. -/
theorem unrecognized_command_fatal_witness :
    isEventTypeMember 9 = false
    ∧ stFrame0.eventsize.getD 9 0 = 0
    ∧ handle_slippstream_events envFlat 1 stFrame0 gsFrame0 [9] = .exn (.valueError 9) :=
  ⟨by decide, by decide,
    unrecognized_command_fatal envFlat 0 stFrame0 gsFrame0 9 [] (by decide) (by decide)⟩

/-- C5: for a player present in both the current and previous snapshots, the
post-frame invulnerability countdown is the previous value minus one floored
at zero, overridden to 120 by the respawn-platform idle action, to 120 by the
respawn-platform descent action past frame 150, and to 36 by the first
action-frame of the ledge-catch action. -/
theorem invulnerability_countdown (env : Env) (st : ConsoleState) (gs : GameState)
    (f : PostFields) (prev : PlayerState)
    (hprev : lookupPort st.prev_gamestate.player f.port = some prev) :
    (lookupPort (applyPostFrame env st gs f).2.player f.port).map
        PlayerState.invulnerability_left
      = some (if f.action = ACTION_EDGE_CATCHING ∧ f.action_frame = 1 then 36
              else if f.action = ACTION_ON_HALO_DESCENT ∧ f.frame > 150 then 120
              else if f.action = ACTION_ON_HALO_WAIT then 120
              else max 0 (prev.invulnerability_left - 1)) := by
  unfold applyPostFrame
  dsimp only
  rw [lookupPort_setPort, Option.map_some']
  dsimp only
  rw [hprev, updateMoonwalk_invulnerability, updateInvulnerability_value]

/-- Witness for C5: previous countdown 50 with a neutral action gives 49. -/
theorem invulnerability_countdown_witness :
    (lookupPort (applyPostFrame envFlat stPrev50 gsFrame0 pfNeutral).2.player
        pfNeutral.port).map PlayerState.invulnerability_left = some 49 := by
  have h := invulnerability_countdown envFlat stPrev50 gsFrame0 pfNeutral prevPlayer50 rfl
  rw [h]
  norm_num [pfNeutral, prevPlayer50, ACTION_EDGE_CATCHING, ACTION_ON_HALO_DESCENT,
    ACTION_ON_HALO_WAIT]

/-- C7: the moonwalk-warning flag is set on a transition into dashing from a
previous action that is neither dashing nor turning, and cleared whenever the
current action is not dashing. -/
theorem moonwalk_warning_transitions (env : Env) (st : ConsoleState) (gs : GameState)
    (f : PostFields) (prev : PlayerState)
    (hprev : lookupPort st.prev_gamestate.player f.port = some prev) :
    ((f.action = ACTION_DASHING ∧ prev.action ≠ ACTION_DASHING
        ∧ prev.action ≠ ACTION_TURNING) →
      (lookupPort (applyPostFrame env st gs f).2.player f.port).map
          PlayerState.moonwalkwarning = some true)
    ∧ (f.action ≠ ACTION_DASHING →
      (lookupPort (applyPostFrame env st gs f).2.player f.port).map
          PlayerState.moonwalkwarning = some false) := by
  constructor
  · rintro ⟨hd, hp1, hp2⟩
    unfold applyPostFrame
    dsimp only
    rw [lookupPort_setPort, Option.map_some']
    dsimp only
    rw [hprev]
    rw [updateMoonwalk_set _ _ (by rw [updateInvulnerability_action]; exact hd) hp1 hp2]
  · intro hd
    unfold applyPostFrame
    dsimp only
    rw [lookupPort_setPort, Option.map_some']
    dsimp only
    rw [hprev]
    rw [updateMoonwalk_clear _ _ (by rw [updateInvulnerability_action]; exact hd)]

/-- Witness for C7: entering dashing from a neutral action sets the warning. -/
theorem moonwalk_warning_transitions_witness :
    (lookupPort (applyPostFrame envFlat stPrev50 gsFrame0 pfDashing).2.player
        pfDashing.port).map PlayerState.moonwalkwarning = some true :=
  (moonwalk_warning_transitions envFlat stPrev50 gsFrame0 pfDashing prevPlayer50 rfl).1
    ⟨rfl, by decide, by decide⟩

/-- C1 counterexample: with ground-edge bound 85, position `(90, 0)` and
airborne, the emitted off-stage flag is true although the vertical position
is not below -6 — refuting the claim that the flag requires the horizontal
excess AND the vertical condition to hold together. -/
theorem offstage_flag_conjunction_cex :
    (lookupPort (applyPostFrame envEdge85 stFrame0 gsFrame0 pfOffstageX).2.player
        pfOffstageX.port).map PlayerState.off_stage = some true
    ∧ ¬(pfOffstageX.y < -6) := by
  constructor
  · unfold applyPostFrame
    dsimp only
    rw [lookupPort_setPort, Option.map_some']
    dsimp only
    rw [updateMoonwalk_x, updateMoonwalk_y, updateMoonwalk_on_ground,
      updateInvulnerability_x, updateInvulnerability_y, updateInvulnerability_on_ground]
    unfold offStageFlag envEdge85 envFlat
    dsimp only [pfOffstageX]
    simp only [Option.some.injEq, decide_eq_true_eq]
    exact ⟨Or.inl (by rw [abs_of_nonneg (by norm_num : (0:ℚ) ≤ 90)]; norm_num), trivial⟩
  · norm_num [pfOffstageX]

/-- C1 (amended): the emitted off-stage flag is true exactly when the
absolute horizontal position exceeds the current stage's ground-edge bound OR
the vertical position is below -6, AND the player is airborne; when the
current stage has no entry in the ground-edge table, the flag is false. -/
theorem offstage_flag_disjunction (env : Env) (st : ConsoleState) (gs : GameState)
    (f : PostFields) :
    (∀ bound : ℚ, env.edgeGroundPosition st.current_stage = some bound →
      (lookupPort (applyPostFrame env st gs f).2.player f.port).map PlayerState.off_stage
        = some (decide ((|f.x| > bound ∨ f.y < -6) ∧ f.on_ground = false)))
    ∧ (env.edgeGroundPosition st.current_stage = none →
      (lookupPort (applyPostFrame env st gs f).2.player f.port).map PlayerState.off_stage
        = some false) := by
  constructor
  · intro bound hb
    unfold applyPostFrame
    dsimp only
    rw [lookupPort_setPort, Option.map_some']
    dsimp only
    rw [updateMoonwalk_x, updateMoonwalk_y, updateMoonwalk_on_ground,
      updateInvulnerability_x, updateInvulnerability_y, updateInvulnerability_on_ground]
    unfold offStageFlag
    rw [hb]
  · intro hb
    unfold applyPostFrame
    dsimp only
    rw [lookupPort_setPort, Option.map_some']
    dsimp only
    unfold offStageFlag
    rw [hb]

/-- Witness for the amended C1 at the spec's example: bound 85, position
`(90, -10)`, airborne, gives an off-stage flag of true. -/
theorem offstage_flag_disjunction_witness :
    envEdge85.edgeGroundPosition stFrame0.current_stage = some 85
    ∧ (lookupPort (applyPostFrame envEdge85 stFrame0 gsFrame0 pfOffstageW).2.player
        pfOffstageW.port).map PlayerState.off_stage = some true := by
  refine ⟨rfl, ?_⟩
  have h := (offstage_flag_disjunction envEdge85 stFrame0 gsFrame0 pfOffstageW).1 85 rfl
  rw [h]
  simp only [Option.some.injEq, decide_eq_true_eq]
  exact ⟨Or.inr (by norm_num [pfOffstageW]), rfl⟩

/-- C6: a session-start record declaring a protocol version below 3.0.0
without the caller's legacy opt-in raises `SlippiVersionTooLow`; whenever the
record decodes, legacy-bookend mode is active if and only if the caller
opted in AND the declared version is below 3.0.0. -/
theorem version_gate_and_legacy_mode (env : Env) (st : ConsoleState) (b : List Nat)
    (major minor vnum : Nat) (h1 : readU8 b 0x1 = some major)
    (h2 : readU8 b 0x2 = some minor) (h3 : readU8 b 0x3 = some vnum) :
    (versionLt major minor vnum 3 0 0 = true → st.allow_old_version = false →
      game_start env st b = .error (.slippiVersionTooLow major minor vnum))
    ∧ ((game_start env st b).map ConsoleState.use_manual_bookends
        = (game_start env st b).map
            (fun _ => st.allow_old_version && versionLt major minor vnum 3 0 0)) := by
  constructor
  · intro hv ha
    unfold game_start
    rw [h1, h2, h3]
    dsimp only
    rw [if_pos ⟨(versionLt_three major minor vnum).mp hv, ha⟩]
  · unfold game_start
    rw [h1, h2, h3]
    dsimp only
    split
    · rfl
    · rcases hS : readU16 b 0x13 with _ | rawStage
      · rfl
      · dsimp only
        rcases hA : read4 b 0x68 0x24 with _ | cs <;>
          rcases hB : read4 b 0x74 0x24 with _ | cp <;>
            rcases hC : read4 b 0x66 0x24 with _ | ty <;> rfl

/-- Witness for C6: version 2.0.0 without opt-in raises; with opt-in the
record decodes and legacy mode is on. -/
theorem version_gate_and_legacy_mode_witness :
    game_start envFlat stFrame0 gameStartBuf2
        = .error (.slippiVersionTooLow 2 0 0)
    ∧ (game_start envFlat stOptIn gameStartBuf2).map ConsoleState.use_manual_bookends
        = (game_start envFlat stOptIn gameStartBuf2).map
            (fun _ => stOptIn.allow_old_version && versionLt 2 0 0 3 0 0) := by
  constructor
  · exact (version_gate_and_legacy_mode envFlat stFrame0 gameStartBuf2 2 0 0
      (by decide) (by decide) (by decide)).1 (by decide) rfl
  · exact (version_gate_and_legacy_mode envFlat stOptIn gameStartBuf2 2 0 0
      (by decide) (by decide) (by decide)).2

/-- C8: the projectile appended by an item-update record has owner port equal
to the raw owner byte plus one, except that any resulting value greater than
four is replaced by the sentinel -1; in particular raw byte 0 yields port 1
and raw byte 4 yields -1. -/
theorem projectile_owner_mapping (env : Env) (gs : GameState) (b : List Nat) (v : Nat)
    (gs' : GameState) (hv : readU8 b 0x2A = some v)
    (hok : item_update env gs b = .ok gs') :
    (gs'.projectiles.getLast?).map Projectile.owner
      = some (if 4 < (v : Int) + 1 then -1 else (v : Int) + 1)
    ∧ (v = 0 → (gs'.projectiles.getLast?).map Projectile.owner = some 1)
    ∧ (v = 4 → (gs'.projectiles.getLast?).map Projectile.owner = some (-1)) := by
  have hmain : (gs'.projectiles.getLast?).map Projectile.owner
      = some (if 4 < (v : Int) + 1 then -1 else (v : Int) + 1) := by
    unfold item_update at hok
    rw [hv] at hok
    dsimp only at hok
    split at hok
    all_goals try exact Except.noConfusion hok
    split at hok
    all_goals try exact Except.noConfusion hok
    injection hok with h
    subst h
    rw [List.getLast?_concat]
    rfl
  refine ⟨hmain, ?_, ?_⟩
  · intro h0
    subst h0
    rw [hmain]
    decide
  · intro h4
    subst h4
    rw [hmain]
    decide

set_option maxRecDepth 8000 in
/-- Witness for C8: a record whose owner byte is 4 produces a projectile with
the sentinel owner -1. -/
theorem projectile_owner_mapping_witness :
    readU8 itemBuf4 0x2A = some 4
    ∧ item_update envFlat gsFrame0 itemBuf4 = .ok gsItemRes
    ∧ (gsItemRes.projectiles.getLast?).map Projectile.owner = some (-1) :=
  ⟨by decide, rfl,
    (projectile_owner_mapping envFlat gsFrame0 itemBuf4 4 gsItemRes (by decide) rfl).2.2 rfl⟩

/-- C10: the frame-bookend distance with fewer than two players defaults the
missing positions to the origin — with exactly one player it equals that
player's Euclidean distance from the origin, and with no players it is 0. -/
theorem bookend_distance_defaults (gs : GameState) :
    (∀ p s, gs.player = [(p, s)] →
        (frame_bookend gs).distance = euclideanDistance (s.x, s.y) (0, 0))
    ∧ (gs.player = [] → (frame_bookend gs).distance = 0) := by
  constructor
  · intro p s h
    unfold frame_bookend GameState.distance euclideanDistance
    rw [h]
    dsimp only
    congr 1
    push_cast
    ring
  · intro h
    unfold frame_bookend GameState.distance
    rw [h]
    dsimp only
    norm_num [Real.sqrt_zero]

/-- Witness for C10: a lone player at `(3, 4)` yields distance equal to the
Euclidean distance of `(3, 4)` from the origin. -/
theorem bookend_distance_defaults_witness :
    (frame_bookend gsOnePlayer).distance = euclideanDistance (3, 4) (0, 0) :=
  (bookend_distance_defaults gsOnePlayer).1 1 { x := 3, y := 4 } rfl
